import Mathlib

/-!
Shallow embedding of `src/src/components/searchbar/searchbar.ts` (the Ionic
`Searchbar` component) and verification of its natural-language specification.

The component's state is the private fields of the `Searchbar` class
(`_value`, `_tmr`, `_shouldBlur`, `isFocused`, `shouldLeftAlign`, the
`debounce` input).  Each event handler of the class (`inputChanged`,
`inputFocused`, `inputBlurred`, `clearInput`, `cancelSearchbar`,
`writeValue`) is embedded as a pure function from state to state, together
with the list of notifications it emits (`ionInput`, `ionBlur`, ...) and the
list of arguments it passes to the registered `onChange` callback.

`setTimeout` / `clearTimeout` are modelled explicitly: the host's timer
subsystem is a list of pending timers carried in the state; `setTimeout`
appends a fresh timer (with a fresh numeric handle and an absolute fire
time) and `clearTimeout h` removes the timer whose handle is `h`, if any.
The class field `_tmr` stores the handle of the most recently scheduled
timer, exactly as in the source.  Time is modelled as `ℚ` (exact
JavaScript-style millisecond timestamps); `Math.round` is `⌊q + 1/2⌋` and
`setTimeout` clamps negative delays to `0`, as the HTML timer spec does.
-/

namespace Searchbar

/-- A JavaScript value as stored in the `_value : string|number` field.
`undef` stands for `undefined`/`null` (both rejected by `isPresent`). -/
inductive Value where
  | str : String → Value
  | num : Int → Value
  | undef : Value
deriving DecidableEq, Repr

/-- `isPresent` from `src/src/util/util`: `val !== undefined && val !== null`. -/
def isPresent : Value → Bool
  | .undef => false
  | _ => true

/-- JavaScript truthiness of a `Value`: the empty string, `0`, `undefined`
and `null` are falsy. -/
def truthy : Value → Bool
  | .str s => s != ""
  | .num n => n != 0
  | .undef => false

/-- JavaScript `toString()` of a `Value` (only ever applied to truthy values
by the source, through short-circuiting `&&`). -/
def valueToString : Value → String
  | .str s => s
  | .num n => toString n
  | .undef => "undefined"

/-- JavaScript `String.prototype.trim`: strip leading and trailing
whitespace from the character list. -/
def jsTrim (s : String) : String :=
  ⟨((s.data.dropWhile Char.isWhitespace).reverse.dropWhile
      Char.isWhitespace).reverse⟩

/-- The value-based alignment test of lines 201 and 296 of the source:
`this._value && this._value.toString().trim() !== ''`, read as a boolean. -/
def leftAlignOf (v : Value) : Bool :=
  truthy v && (jsTrim (valueToString v) != "")

/-- `Math.round` on a JavaScript number: round half toward positive infinity. -/
def jsRound (q : ℚ) : ℤ := ⌊q + 1/2⌋

/-- The effective delay of `setTimeout(cb, Math.round(this.debounce))`:
`Math.round(debounce)`, clamped to `0` as the timer spec clamps negative
timeouts. -/
def jsTimeoutDelay (d : ℚ) : ℤ := max (jsRound d) 0

/-- A pending timer in the host's timer subsystem: the handle returned by
`setTimeout`, the absolute time at which it is due, and the captured
`ev.target.value` of the input event that scheduled it (the `value` local
of `inputChanged`, line 258). -/
structure Timer where
  id : Nat
  fireAt : ℚ
  value : String
deriving DecidableEq, Repr

/-- The state of one `Searchbar` instance (fields of the class at lines
57-139) together with the timer subsystem.

* `value` — `_value : string|number` (line 58)
* `tmrHandle` — `_tmr` (line 59), the handle last returned by `setTimeout`
* `shouldBlur` — `_shouldBlur` (line 60); this is the suppress-blur flag,
  which counts as RAISED when `shouldBlur = false`
* `isFocused`, `shouldLeftAlign` — the host-binding fields (lines 134, 139)
* `debounce` — the `debounce` input (line 79)
* `pending`, `nextId` — the host timer subsystem: pending timers and the
  next fresh handle
* `destroyed` — whether the host has destroyed the widget instance -/
structure SState where
  value : Value
  tmrHandle : Option Nat
  shouldBlur : Bool
  isFocused : Bool
  shouldLeftAlign : Bool
  debounce : ℚ
  pending : List Timer
  nextId : Nat
  destroyed : Bool
deriving DecidableEq, Repr

/-- Notifications emitted by the handlers (`EventEmitter.emit` calls), plus
`domFocus` for the direct DOM call `this.inputEle.focus()` at line 289. -/
inductive Emit where
  | ionInput
  | ionBlur
  | ionFocus
  | ionCancel
  | ionClear
  | domFocus
deriving DecidableEq, Repr

/-- State of a freshly created widget after `ngOnInit` (line 193): `_value`
starts as `''` but may have been set through the `value` input before
init, so it is a parameter; `_shouldBlur` starts `true` (line 60);
`isFocused` starts `undefined`, i.e. falsy; `shouldLeftAlign` is computed
at line 201 by the same test as on blur.  No timer is pending and `_tmr`
is `undefined`. -/
def initState (d : ℚ) (v0 : Value) : SState :=
  { value := v0
    tmrHandle := none
    shouldBlur := true
    isFocused := false
    shouldLeftAlign := leftAlignOf v0
    debounce := d
    pending := []
    nextId := 0
    destroyed := false }

/-- `inputChanged` (lines 257-266), called with the event's current time `t`
and `ev.target.value`.  It runs `clearTimeout(this._tmr)` — remove the
pending timer whose handle is `_tmr`, a no-op when none matches — then
`this._tmr = setTimeout(cb, Math.round(this.debounce))`, which registers a
fresh timer due at `t + jsTimeoutDelay debounce` whose callback captures
the local `value`.  The handler itself emits nothing and calls no
callback. -/
def inputChanged (t : ℚ) (evValue : String) (s : SState) : SState :=
  { s with
    pending :=
      (s.pending.filter (fun tm => s.tmrHandle != some tm.id)) ++
        [{ id := s.nextId, fireAt := t + (jsTimeoutDelay s.debounce : ℚ),
           value := evValue }]
    tmrHandle := some s.nextId
    nextId := s.nextId + 1 }

/-- The body of the `setTimeout` callback of `inputChanged` (lines 261-264):
`this._value = value; this.onChange(this._value); this.ionInput.emit(ev)`.
Returns the new state, the emitted notifications and the `onChange`
arguments. -/
def timerCallback (v : String) (s : SState) : SState × List Emit × List Value :=
  ({ s with value := .str v }, [.ionInput], [.str v])

/-- The host timer subsystem firing the first pending timer, if any: the
timer is removed from the queue and its callback runs. -/
def fireHead (s : SState) : SState × List Emit × List Value :=
  match s.pending with
  | [] => (s, [], [])
  | tm :: rest => timerCallback tm.value { s with pending := rest }

/-- `inputFocused` (lines 272-278): emit `ionFocus`, set `isFocused := true`
and `shouldLeftAlign := true`.  (`setElementLeft` only mutates inline DOM
styles and is not part of the state.) -/
def inputFocused (s : SState) : SState × List Emit × List Value :=
  ({ s with isFocused := true, shouldLeftAlign := true }, [.ionFocus], [])

/-- `inputBlurred` (lines 285-298): when `_shouldBlur` is `false` the
handler calls `this.inputEle.focus()`, resets `_shouldBlur := true` and
returns without emitting `ionBlur` or touching any other field; otherwise
it emits `ionBlur`, sets `isFocused := false` and recomputes
`shouldLeftAlign` from the value (line 296). -/
def inputBlurred (s : SState) : SState × List Emit × List Value :=
  if s.shouldBlur = false then
    ({ s with shouldBlur := true }, [.domFocus], [])
  else
    ({ s with isFocused := false, shouldLeftAlign := leftAlignOf s.value },
      [.ionBlur], [])

/-- `clearInput` (lines 304-314): emit `ionClear`; if
`isPresent(this._value) && this._value !== ''` then set `_value := ''`,
call `onChange('')` and emit `ionInput`; in all cases set
`_shouldBlur := false` (raise the suppress-blur flag). -/
def clearInput (s : SState) : SState × List Emit × List Value :=
  if isPresent s.value ∧ s.value ≠ .str "" then
    ({ s with value := .str "", shouldBlur := false },
      [.ionClear, .ionInput], [.str ""])
  else
    ({ s with shouldBlur := false }, [.ionClear], [])

/-- `cancelSearchbar` (lines 322-327): emit `ionCancel`, run `clearInput`,
then set `_shouldBlur := true` (lower the suppress-blur flag). -/
def cancelSearchbar (s : SState) : SState × List Emit × List Value :=
  ({ (clearInput s).1 with shouldBlur := true },
    .ionCancel :: (clearInput s).2.1, (clearInput s).2.2)

/-- `writeValue` (lines 333-335): `this._value = val` and nothing else. -/
def writeValue (v : Value) (s : SState) : SState :=
  { s with value := v }

/-- One external stimulus delivered to the widget by the host: an `input`
event (with its time and `ev.target.value`), the timer subsystem firing a
due timer, `focus`/`blur` events, clicks on the clear and cancel buttons,
a `writeValue` call from the form-control integration, and destruction of
the instance by the host. -/
inductive Op where
  | input (t : ℚ) (v : String)
  | fire
  | focus
  | blur
  | clear
  | cancel
  | write (v : Value)
  | destroy
deriving DecidableEq, Repr

/-- Dispatch one stimulus to the corresponding handler.  The `Searchbar`
class declares no `ngOnDestroy` or any other teardown hook, so destruction
runs no component code at all: in particular it does not cancel pending
timers.  The `destroyed` flag only records that destruction happened. -/
def step (s : SState) (op : Op) : SState × List Emit × List Value :=
  match op with
  | .input t v => (inputChanged t v s, [], [])
  | .fire => fireHead s
  | .focus => inputFocused s
  | .blur => inputBlurred s
  | .clear => clearInput s
  | .cancel => cancelSearchbar s
  | .write v => (writeValue v s, [], [])
  | .destroy => ({ s with destroyed := true }, [], [])

/-- Run a sequence of stimuli, keeping only the resulting state. -/
def applyOps : SState → List Op → SState
  | s, [] => s
  | s, op :: rest => applyOps (step s op).1 rest

/-- The outcome of a timed run: final state, the commits that occurred
(each recorded as its absolute fire time and committed value; every commit
also calls `onChange` once and emits one `ionInput`), all notifications
emitted by fired timer callbacks, and all `onChange` arguments. -/
structure RunOut where
  state : SState
  commits : List (ℚ × String)
  emits : List Emit
  changes : List Value
deriving DecidableEq, Repr

/-- Deliver a time-stamped sequence of raw `input` events.  Before an event
at time `t` is handled, a pending timer that is due (`fireAt ≤ t`) fires
first; then the event runs `inputChanged`. -/
def processEvents : SState → List (ℚ × String) → RunOut
  | s, [] => ⟨s, [], [], []⟩
  | s, (t, v) :: rest =>
    match s.pending with
    | tm :: _ =>
      if tm.fireAt ≤ t then
        let c := fireHead s
        let r := processEvents (inputChanged t v c.1) rest
        ⟨r.state, (tm.fireAt, tm.value) :: r.commits, c.2.1 ++ r.emits,
          c.2.2 ++ r.changes⟩
      else
        processEvents (inputChanged t v s) rest
    | [] => processEvents (inputChanged t v s) rest

/-- Let time run to quiescence: fire every remaining pending timer. -/
def flushList : SState → List Timer → RunOut
  | s, [] => ⟨s, [], [], []⟩
  | s, tm :: rest =>
    let c := timerCallback tm.value { s with pending := rest }
    let r := flushList c.1 rest
    ⟨r.state, (tm.fireAt, tm.value) :: r.commits, c.2.1 ++ r.emits,
      c.2.2 ++ r.changes⟩

/-- A complete run: deliver the events in order, then let time run to
quiescence so that the last scheduled timer (if any) fires. -/
def runInputs (s : SState) (evs : List (ℚ × String)) : RunOut :=
  let r := processEvents s evs
  let f := flushList r.state r.state.pending
  ⟨f.state, r.commits ++ f.commits, r.emits ++ f.emits, r.changes ++ f.changes⟩

/-- The events of a time-stamped sequence are consecutively spaced less
than `D` apart. -/
def spacedLt (D : ℚ) : List (ℚ × String) → Bool
  | [] => true
  | [_] => true
  | e1 :: e2 :: rest => decide (e2.1 - e1.1 < D) && spacedLt D (e2 :: rest)

/-- Modelled from the spec: the alignment invariant as the spec states it —
`shouldLeftAlign` "is true whenever focused, or whenever unfocused with a
value whose trimmed string form is non-empty; false otherwise".  Used to
compare the spec's claimed invariant with the embedded code. -/
def specAligned (s : SState) : Bool :=
  s.isFocused || (isPresent s.value && (jsTrim (valueToString s.value) != ""))

/-- The claimed post-blur alignment value of claim C6, from the spec's
words: "(value is present) AND (the value's trimmed string form is not the
empty string)". -/
def specBlurAlign (v : Value) : Bool :=
  isPresent v && (jsTrim (valueToString v) != "")

/-- The timer-subsystem invariant: either no timer is pending, or exactly
one is pending and `_tmr` holds its handle. -/
def timerInv (s : SState) : Prop :=
  s.pending = [] ∨ ∃ tm, s.pending = [tm] ∧ s.tmrHandle = some tm.id

lemma timerInv_step (s : SState) (op : Op) (h : timerInv s) :
    timerInv (step s op).1 := by
  cases op with
  | input t v =>
    refine Or.inr ⟨⟨s.nextId, t + (jsTimeoutDelay s.debounce : ℚ), v⟩, ?_, rfl⟩
    rcases h with h | ⟨tm, hp, hh⟩
    · simp [step, inputChanged, h]
    · simp [step, inputChanged, hp, hh]
  | fire =>
    rcases h with h | ⟨tm, hp, hh⟩
    · exact Or.inl (by simp [step, fireHead, h])
    · exact Or.inl (by simp [step, fireHead, hp, timerCallback])
  | focus => rcases h with h | ⟨tm, hp, hh⟩
             · exact Or.inl (by simpa [step, inputFocused] using h)
             · exact Or.inr ⟨tm, by simpa [step, inputFocused] using hp,
                 by simpa [step, inputFocused] using hh⟩
  | blur =>
    rcases h with h | ⟨tm, hp, hh⟩
    · refine Or.inl ?_
      by_cases hb : s.shouldBlur = false <;> simpa [step, inputBlurred, hb] using h
    · refine Or.inr ⟨tm, ?_, ?_⟩ <;>
        by_cases hb : s.shouldBlur = false <;>
          simp [step, inputBlurred, hb, hp, hh]
  | clear =>
    rcases h with h | ⟨tm, hp, hh⟩
    · refine Or.inl ?_
      by_cases hc : isPresent s.value ∧ s.value ≠ .str "" <;>
        simpa [step, clearInput, hc] using h
    · refine Or.inr ⟨tm, ?_, ?_⟩ <;>
        by_cases hc : isPresent s.value ∧ s.value ≠ .str "" <;>
          simp [step, clearInput, hc, hp, hh]
  | cancel =>
    rcases h with h | ⟨tm, hp, hh⟩
    · refine Or.inl ?_
      by_cases hc : isPresent s.value ∧ s.value ≠ .str "" <;>
        simpa [step, cancelSearchbar, clearInput, hc] using h
    · refine Or.inr ⟨tm, ?_, ?_⟩ <;>
        by_cases hc : isPresent s.value ∧ s.value ≠ .str "" <;>
          simp [step, cancelSearchbar, clearInput, hc, hp, hh]
  | write v => rcases h with h | ⟨tm, hp, hh⟩
               · exact Or.inl (by simpa [step, writeValue] using h)
               · exact Or.inr ⟨tm, by simpa [step, writeValue] using hp,
                   by simpa [step, writeValue] using hh⟩
  | destroy => rcases h with h | ⟨tm, hp, hh⟩
               · exact Or.inl (by simpa [step] using h)
               · exact Or.inr ⟨tm, by simpa [step] using hp,
                   by simpa [step] using hh⟩

lemma timerInv_applyOps (ops : List Op) :
    ∀ s : SState, timerInv s → timerInv (applyOps s ops) := by
  induction ops with
  | nil => intro s h; simpa [applyOps] using h
  | cons op rest ih =>
    intro s h
    have h1 := timerInv_step s op h
    simpa [applyOps] using ih _ h1

/-- Claim C3: when the current value is present and non-empty, `clearInput`
emits a clear notification, synchronously sets the value to the empty
string (the pending-timer queue is untouched, so no timer is involved),
invokes the registered change callback exactly once with the new empty
value, emits exactly one input-changed (`ionInput`) notification, and
raises the suppress-blur flag (`_shouldBlur := false`). -/
theorem C3_clear_nonempty (s : SState) (h1 : isPresent s.value = true)
    (h2 : s.value ≠ Value.str "") :
    clearInput s =
      ({ s with value := Value.str "", shouldBlur := false },
        [Emit.ionClear, Emit.ionInput], [Value.str ""]) := by
  simp [clearInput, h1, h2]

/-- Witness for C3 at the spec's scenario `value = "hello"`. -/
theorem C3_clear_nonempty_witness :
    clearInput (initState 250 (Value.str "hello")) =
      ({ initState 250 (Value.str "hello") with value := Value.str "", shouldBlur := false },
        [Emit.ionClear, Emit.ionInput], [Value.str ""]) :=
  C3_clear_nonempty (initState 250 (Value.str "hello")) rfl (by decide)

/-- Claim C7: when the current value is absent or the empty string,
`clearInput` emits the clear notification but no input-changed
notification, does not invoke the change callback, and leaves the value
unchanged (only the suppress-blur flag is touched). -/
theorem C7_clear_empty (s : SState)
    (h : isPresent s.value = false ∨ s.value = Value.str "") :
    clearInput s = ({ s with shouldBlur := false }, [Emit.ionClear], []) := by
  rcases h with h | h <;> simp [clearInput, h]

/-- Witness for C7 at the spec's scenario `value = ""`. -/
theorem C7_clear_empty_witness :
    clearInput (initState 250 (Value.str "")) =
      ({ initState 250 (Value.str "") with shouldBlur := false },
        [Emit.ionClear], []) :=
  C7_clear_empty (initState 250 (Value.str "")) (Or.inr rfl)

/-- Claim C8: for every prior state, `cancelSearchbar` emits a cancel
notification followed by exactly the emissions of `clearInput`, performs
the same state change and callback invocations as `clearInput`, and ends
with the suppress-blur flag lowered (`_shouldBlur = true`) regardless of
the prior value or flag. -/
theorem C8_cancel_steps (s : SState) :
    cancelSearchbar s =
      ({ (clearInput s).1 with shouldBlur := true },
        Emit.ionCancel :: (clearInput s).2.1, (clearInput s).2.2) ∧
    (cancelSearchbar s).1.shouldBlur = true :=
  ⟨rfl, rfl⟩

/-- Claim C9: a blur event arriving while the suppress-blur flag is raised
(`_shouldBlur = false`) makes the handler re-assert focus on the
underlying input element (the `domFocus` action), clear the flag, emit no
blur notification, and leave `isFocused`, `shouldLeftAlign` and the value
unchanged. -/
theorem C9_blur_suppressed (s : SState) (h : s.shouldBlur = false) :
    inputBlurred s = ({ s with shouldBlur := true }, [Emit.domFocus], []) := by
  simp [inputBlurred, h]

/-- Witness for C9: a focused searchbar right after a clear. -/
theorem C9_blur_suppressed_witness :
    inputBlurred { initState 250 (Value.str "x") with shouldBlur := false } =
      ({ { initState 250 (Value.str "x") with shouldBlur := false } with shouldBlur := true },
        [Emit.domFocus], []) :=
  C9_blur_suppressed { initState 250 (Value.str "x") with shouldBlur := false } rfl

/-- Claim C10: `writeValue v` sets the stored value to `v` and changes
nothing else — it emits nothing, invokes no callback and leaves the timer
queue untouched — and consequently a commit scheduled by an earlier
`inputChanged` still fires after `writeValue` and overwrites the written
value with the captured event value. -/
theorem C10_writeValue_frame (s : SState) (v : Value) (d : ℚ) (v0 : Value)
    (t : ℚ) (ev : String) (w : Value) :
    step s (Op.write v) = ({ s with value := v }, [], []) ∧
    (applyOps (initState d v0) [Op.input t ev, Op.write w, Op.fire]).value
      = Value.str ev := by
  refine ⟨rfl, ?_⟩
  simp [applyOps, step, inputChanged, initState, writeValue, fireHead,
    timerCallback]

/-- Claim C2: in every reachable state at most one debounce timer is
pending, and a call to `inputChanged` on a reachable state first cancels
any prior pending timer, leaving exactly the one newly scheduled timer
(due `jsTimeoutDelay debounce` after the event, handle stored in `_tmr`). -/
theorem C2_single_pending_timer (d : ℚ) (v0 : Value) (ops : List Op)
    (t : ℚ) (v : String) :
    (applyOps (initState d v0) ops).pending.length ≤ 1 ∧
    (inputChanged t v (applyOps (initState d v0) ops)).pending =
      [⟨(applyOps (initState d v0) ops).nextId,
        t + (jsTimeoutDelay (applyOps (initState d v0) ops).debounce : ℚ), v⟩] := by
  have h := timerInv_applyOps ops (initState d v0) (Or.inl rfl)
  rcases h with h | ⟨tm, hp, hh⟩
  · exact ⟨by rw [h]; simp, by simp [inputChanged, h]⟩
  · exact ⟨by rw [hp]; simp, by simp [inputChanged, hp, hh]⟩

/-- Claim C4 (code bug): the `Searchbar` class declares no `ngOnDestroy`
or any other teardown hook, so destroying the widget cancels nothing.
Concretely: after an input event at t = 0 with `debounce = 250` and a
subsequent destruction of the instance, the timer is still pending, and
when it fires its callback still commits the captured value and emits
`ionInput` on the destroyed instance. -/
theorem C4_timer_fires_after_destroy :
    (applyOps (initState 250 (Value.str "")) [Op.input 0 "a", Op.destroy]).destroyed = true ∧
    (applyOps (initState 250 (Value.str "")) [Op.input 0 "a", Op.destroy]).pending.length = 1 ∧
    (step (applyOps (initState 250 (Value.str "")) [Op.input 0 "a", Op.destroy]) Op.fire).2.1
      = [Emit.ionInput] ∧
    (step (applyOps (initState 250 (Value.str "")) [Op.input 0 "a", Op.destroy]) Op.fire).1.value
      = Value.str "a" :=
  ⟨rfl, rfl, rfl, rfl⟩

/-- Counterexample to claim C5 as stated: `writeValue` (here: the host
writing `"hello"` into an unfocused, empty searchbar) does not recompute
`shouldLeftAlign`, so afterwards the widget is unfocused with a non-empty
trimmed value yet `shouldLeftAlign` is still `false`, while the spec's
invariant demands `true`. -/
theorem C5_counterexample :
    specAligned (applyOps (initState 250 (Value.str "")) [Op.write (Value.str "hello")]) = true ∧
    (applyOps (initState 250 (Value.str "")) [Op.write (Value.str "hello")]).isFocused = false ∧
    (applyOps (initState 250 (Value.str "")) [Op.write (Value.str "hello")]).shouldLeftAlign
      = false :=
  ⟨rfl, rfl, rfl⟩

/-- Claim C5 (amended): the alignment relation `shouldLeftAlign =
isFocused || (value truthy with non-empty trimmed string form)` holds
after initialization (`ngOnInit`), after `inputFocused`, and after
`inputBlurred` with the suppress-blur flag unset; the handlers that set
the value without recomputing alignment (`writeValue`, `clearInput`, the
debounce commit callback) do not re-establish it, so it is not an
invariant of every reachable state. -/
theorem C5_align_focus_blur_init (d : ℚ) (v0 : Value) (s : SState)
    (h : s.shouldBlur = true) :
    ((initState d v0).shouldLeftAlign
      = ((initState d v0).isFocused || leftAlignOf (initState d v0).value)) ∧
    ((inputFocused s).1.shouldLeftAlign
      = ((inputFocused s).1.isFocused || leftAlignOf (inputFocused s).1.value)) ∧
    ((inputBlurred s).1.shouldLeftAlign
      = ((inputBlurred s).1.isFocused || leftAlignOf (inputBlurred s).1.value)) := by
  refine ⟨rfl, by simp [inputFocused], ?_⟩
  simp [inputBlurred, h]

/-- Witness for the amended C5 on a concrete unfocused state. -/
theorem C5_align_focus_blur_init_witness :
    ((initState 250 (Value.str "hi")).shouldLeftAlign
      = ((initState 250 (Value.str "hi")).isFocused
          || leftAlignOf (initState 250 (Value.str "hi")).value)) ∧
    ((inputFocused (initState 250 (Value.str "hi"))).1.shouldLeftAlign
      = ((inputFocused (initState 250 (Value.str "hi"))).1.isFocused
          || leftAlignOf (inputFocused (initState 250 (Value.str "hi"))).1.value)) ∧
    ((inputBlurred (initState 250 (Value.str "hi"))).1.shouldLeftAlign
      = ((inputBlurred (initState 250 (Value.str "hi"))).1.isFocused
          || leftAlignOf (inputBlurred (initState 250 (Value.str "hi"))).1.value)) :=
  C5_align_focus_blur_init 250 (Value.str "hi") (initState 250 (Value.str "hi")) rfl

/-- Counterexample to claim C6 as stated: for the numeric value `0` —
which is present and whose trimmed string form `"0"` is non-empty, so the
claim demands `shouldLeftAlign = true` — a blur with the suppress-blur
flag unset leaves `shouldLeftAlign = false`, because line 296 of the
source tests JavaScript truthiness of the value and `0` is falsy. -/
theorem C6_counterexample :
    specBlurAlign (Value.num 0) = true ∧
    (initState 250 (Value.num 0)).shouldBlur = true ∧
    (inputBlurred (initState 250 (Value.num 0))).1.shouldLeftAlign = false :=
  ⟨rfl, rfl, rfl⟩

/-- Claim C6 (amended): for every value, after a blur event with the
suppress-blur flag unset, exactly one blur notification is emitted,
`isFocused` is `false`, and `shouldLeftAlign` equals (value truthy, i.e.
a non-empty string or a non-zero number) AND (its trimmed string form is
not empty). -/
theorem C6_blur_unsuppressed (s : SState) (h : s.shouldBlur = true) :
    inputBlurred s =
      ({ s with isFocused := false, shouldLeftAlign := leftAlignOf s.value },
        [Emit.ionBlur], []) ∧
    leftAlignOf s.value
      = (truthy s.value && (jsTrim (valueToString s.value) != "")) := by
  refine ⟨?_, rfl⟩
  simp [inputBlurred, h]

lemma processEvents_burst (D : ℤ) :
    ∀ (rest : List (ℚ × String)) (s : SState) (i : Nat) (tp : ℚ) (w : String),
      s.pending = [⟨i, tp + (D : ℚ), w⟩] →
      s.tmrHandle = some i →
      jsTimeoutDelay s.debounce = D →
      spacedLt (D : ℚ) ((tp, w) :: rest) = true →
      (processEvents s rest).commits = [] ∧
      (processEvents s rest).emits = [] ∧
      (processEvents s rest).changes = [] ∧
      ∃ j, (processEvents s rest).state.pending =
          [⟨j, (rest.getLastD (tp, w)).1 + (D : ℚ), (rest.getLastD (tp, w)).2⟩] ∧
        (processEvents s rest).state.tmrHandle = some j := by
  intro rest
  induction rest with
  | nil =>
    intro s i tp w hp hh _ _
    exact ⟨rfl, rfl, rfl, i, by simpa [processEvents, List.getLastD] using hp,
      by simpa [processEvents] using hh⟩
  | cons e rest ih =>
    obtain ⟨t2, v2⟩ := e
    intro s i tp w hp hh hd hsp
    simp [spacedLt, Bool.and_eq_true, decide_eq_true_eq] at hsp
    obtain ⟨hgap, hsp2⟩ := hsp
    have hnle : ¬ ((tp + (D : ℚ)) ≤ t2) := by linarith
    have hstep : processEvents s ((t2, v2) :: rest)
        = processEvents (inputChanged t2 v2 s) rest := by
      simp [processEvents, hp, hnle]
    have hp2 : (inputChanged t2 v2 s).pending
        = [⟨s.nextId, t2 + (D : ℚ), v2⟩] := by
      simp [inputChanged, hp, hh, hd]
    have hh2 : (inputChanged t2 v2 s).tmrHandle = some s.nextId := rfl
    have hd2 : jsTimeoutDelay (inputChanged t2 v2 s).debounce = D := hd
    obtain ⟨hc, he, hch, j, hpf, hhf⟩ :=
      ih (inputChanged t2 v2 s) s.nextId t2 v2 hp2 hh2 hd2 hsp2
    rw [hstep]
    refine ⟨hc, he, hch, j, ?_, hhf⟩
    rw [List.getLastD_cons]
    exact hpf

/-- Counterexample to claim C1 as stated: with `debounce = 5/4` ms the two
input events at `t = 0` and `t = 9/8` are spaced `9/8 < 5/4` ms apart —
less than `debounceMs`, as the claim requires — yet the run produces two
commits and two `ionInput` notifications, because the scheduled delay is
`Math.round(5/4) = 1` ms and the first timer fires at `t = 1`, before the
second event arrives. -/
theorem C1_counterexample :
    spacedLt (5/4 : ℚ) [((0 : ℚ), "a"), ((9/8 : ℚ), "ab")] = true ∧
    (runInputs (initState (5/4) (Value.str ""))
        [((0 : ℚ), "a"), ((9/8 : ℚ), "ab")]).commits.length = 2 ∧
    (runInputs (initState (5/4) (Value.str ""))
        [((0 : ℚ), "a"), ((9/8 : ℚ), "ab")]).emits
      = [Emit.ionInput, Emit.ionInput] := by
  have hD : jsTimeoutDelay (5/4) = 1 := by
    have h1 : jsRound (5/4) = 1 := by
      rw [jsRound, Int.floor_eq_iff]; norm_num
    rw [jsTimeoutDelay, h1]
    decide
  have hle : ((1 : ℚ)) ≤ 9/8 := by norm_num
  refine ⟨?_, ?_, ?_⟩
  · simp [spacedLt]
    norm_num
  · simp [runInputs, processEvents, inputChanged, initState, fireHead,
      timerCallback, flushList, hD, hle]
  · simp [runInputs, processEvents, inputChanged, initState, fireHead,
      timerCallback, flushList, hD, hle]

/-- Claim C1 (amended): for every nonempty sequence of raw input events
consecutively spaced less than the effective scheduled delay
`max(Math.round(debounceMs), 0)` apart, the complete run produces exactly
one commit and one `ionInput` notification, with exactly one `onChange`
invocation; the committed value is the value carried by the last event of
the burst, and the commit fires exactly that delay after the last event. -/
theorem C1_debounce_burst (d : ℚ) (v0 : Value) (t1 : ℚ) (v1 : String)
    (rest : List (ℚ × String))
    (h : spacedLt ((jsTimeoutDelay d : ℤ) : ℚ) ((t1, v1) :: rest) = true) :
    (runInputs (initState d v0) ((t1, v1) :: rest)).commits =
      [((rest.getLastD (t1, v1)).1 + ((jsTimeoutDelay d : ℤ) : ℚ),
        (rest.getLastD (t1, v1)).2)] ∧
    (runInputs (initState d v0) ((t1, v1) :: rest)).emits = [Emit.ionInput] ∧
    (runInputs (initState d v0) ((t1, v1) :: rest)).changes
      = [Value.str (rest.getLastD (t1, v1)).2] ∧
    (runInputs (initState d v0) ((t1, v1) :: rest)).state.value
      = Value.str (rest.getLastD (t1, v1)).2 := by
  have h0 : processEvents (initState d v0) ((t1, v1) :: rest)
      = processEvents (inputChanged t1 v1 (initState d v0)) rest := by
    simp [processEvents, initState]
  obtain ⟨hc, he, hch, j, hp, hh⟩ :=
    processEvents_burst (jsTimeoutDelay d) rest
      (inputChanged t1 v1 (initState d v0)) 0 t1 v1
      (by simp [inputChanged, initState]) rfl rfl h
  rw [runInputs, h0]
  rw [hc, he, hch, hp]
  simp [flushList, timerCallback]

/-- Witness for the amended C1 at the spec's scenario: `debounce = 250`,
`"a"` at `t = 0` and `"ab"` at `t = 100` give a single commit of `"ab"`
firing at `t = 350`. -/
theorem C1_debounce_burst_witness :
    spacedLt ((jsTimeoutDelay 250 : ℤ) : ℚ) [((0 : ℚ), "a"), ((100 : ℚ), "ab")] = true ∧
    (runInputs (initState 250 (Value.str ""))
        [((0 : ℚ), "a"), ((100 : ℚ), "ab")]).commits = [((350 : ℚ), "ab")] ∧
    (runInputs (initState 250 (Value.str ""))
        [((0 : ℚ), "a"), ((100 : ℚ), "ab")]).emits = [Emit.ionInput] ∧
    (runInputs (initState 250 (Value.str ""))
        [((0 : ℚ), "a"), ((100 : ℚ), "ab")]).state.value = Value.str "ab" := by
  have hD : jsTimeoutDelay 250 = 250 := by
    have h1 : jsRound 250 = 250 := by
      rw [jsRound, Int.floor_eq_iff]; norm_num
    rw [jsTimeoutDelay, h1]
    decide
  have hsp : spacedLt ((jsTimeoutDelay 250 : ℤ) : ℚ)
      [((0 : ℚ), "a"), ((100 : ℚ), "ab")] = true := by
    simp [spacedLt, hD]
    norm_num
  have h := C1_debounce_burst 250 (Value.str "") 0 "a" [((100 : ℚ), "ab")] hsp
  refine ⟨hsp, ?_, ?_, ?_⟩
  · rw [h.1]
    simp [List.getLastD, hD]
    norm_num
  · exact h.2.1
  · simpa [List.getLastD] using h.2.2.2

/-- Witness for the amended C6 at the numeric value `7`. -/
theorem C6_blur_unsuppressed_witness :
    inputBlurred (initState 250 (Value.num 7)) =
      ({ initState 250 (Value.num 7) with isFocused := false, shouldLeftAlign := leftAlignOf (Value.num 7) },
        [Emit.ionBlur], []) ∧
    leftAlignOf (Value.num 7)
      = (truthy (Value.num 7) && (jsTrim (valueToString (Value.num 7)) != "")) :=
  C6_blur_unsuppressed (initState 250 (Value.num 7)) rfl

end Searchbar
